import Mathlib

/-!
Shallow embedding of `src/analytics.py` (class `RM4HealthAnalytics`).

Modelling conventions:
* Python scalar values are `Value` (string, int, float, or None); Python floats
  are modelled as rationals `ℚ` (all arithmetic in the source is elementary:
  sums, divisions, comparisons).
* A record (Python dict with string keys) is an association list
  `List (String × Value)`; `getField` is `dict.get`, first match wins.
* Python truthiness (`if record.get(field)`) is `pyTruthy`; Python `==` between
  scalars is `pyEqVal` (numeric values compare numerically across int/float,
  strings compare as strings, mixed string/number is unequal).
* `float(v)` is `pyFloat?` returning `Option ℚ`; the string parser accepts
  `[+-]? digits [. digits]` which covers the decimal literals the source meets
  (exponents/whitespace/infinities are out of scope for the record corpus).
* `str(v).isdigit()` is `strIsdigit`: true for non-negative ints and for
  non-empty ASCII-digit strings, false for floats (their `str` contains `.`).
* `collections.Counter(xs)` is `pyCounter`, an insertion-ordered list of
  (raw value, occurrence count) pairs under `pyEqVal`.
* Operations the source leaves unguarded and that raise `TypeError` at runtime
  (ordered comparison of `str` with `int` in the medication analysis,
  `np.mean` over string-valued arrays in the residence analysis) are embedded
  in `Except String`; everything wrapped in `try/except` in the source is an
  `Option` that silently skips.
* `pd.to_datetime` is kept abstract as a parameter `parseDate : Value → Option ℤ`
  (dates as day ordinals); no claim depends on date parsing semantics.
* `list(set(xs))` (trend field cap) is modelled as first-occurrence
  deduplication `dedupByAux`; CPython's actual set iteration order is
  hash-dependent and is not part of the program text.
-/

inductive Value where
  | str (s : String)
  | int (n : ℤ)
  | float (q : ℚ)
  | none
deriving DecidableEq

abbrev Record := List (String × Value)

/-- `record.get(key)` — `None` (absent) is `Option.none`. -/
def getField (r : Record) (k : String) : Option Value :=
  (r.find? (fun p => p.1 == k)).map (fun p => p.2)

/-- `record.get(key, default)`. -/
def getFieldD (r : Record) (k : String) (d : Value) : Value :=
  (getField r k).getD d

/-- Python truthiness of a scalar value. -/
def pyTruthy : Value → Bool
  | .str s => !s.isEmpty
  | .int n => n ≠ 0
  | .float q => q ≠ 0
  | .none => false

/-- Truthiness of `record.get(field)` (absent is falsy). -/
def truthyOpt : Option Value → Bool
  | Option.none => false
  | Option.some v => pyTruthy v

/-- Python `==` on scalar values: numbers compare numerically across
int/float, strings compare as strings, otherwise unequal (`None == None`). -/
def pyEqVal : Value → Value → Bool
  | .int m, .int n => m == n
  | .int m, .float q => (m : ℚ) == q
  | .float p, .int n => p == (n : ℚ)
  | .float p, .float q => p == q
  | .str s, .str t => s == t
  | .none, .none => true
  | _, _ => false

/-- Python `==` lifted to `record.get` results (`None` only equals `None`). -/
def pyEqOpt : Option Value → Option Value → Bool
  | Option.none, Option.none => true
  | Option.some a, Option.some b => pyEqVal a b
  | _, _ => false

/-- Value of an ASCII digit run. -/
def digitsVal (cs : List Char) : ℕ :=
  cs.foldl (fun a c => 10 * a + (c.toNat - 48)) 0

/-- Decimal parse underlying Python `float(s)`: `[+-]? digits [. digits]`,
at least one digit overall. -/
def parseFloatStr? (s : String) : Option ℚ :=
  let cs := s.toList
  let sign : ℚ := match cs with
    | '-' :: _ => -1
    | _ => 1
  let cs := match cs with
    | '-' :: rest => rest
    | '+' :: rest => rest
    | l => l
  let intPart := cs.takeWhile Char.isDigit
  let rest := cs.dropWhile Char.isDigit
  match rest with
  | [] =>
    if intPart.isEmpty then Option.none
    else Option.some (sign * (digitsVal intPart : ℚ))
  | '.' :: frac =>
    if frac.all Char.isDigit && !(intPart.isEmpty && frac.isEmpty) then
      Option.some (sign * ((digitsVal intPart : ℚ) +
        (digitsVal frac : ℚ) / (10 : ℚ) ^ frac.length))
    else Option.none
  | _ => Option.none

/-- Python `float(v)`: numbers pass through, strings get parsed,
`None`/unparsable strings fail (a `ValueError`/`TypeError` in the source,
always caught where this is used with `Option`). -/
def pyFloat? : Value → Option ℚ
  | .int n => Option.some (n : ℚ)
  | .float q => Option.some q
  | .str s => parseFloatStr? s
  | .none => Option.none

/-- Python `s.isdigit()` restricted to ASCII digits. -/
def pyIsdigitStr (s : String) : Bool :=
  !s.isEmpty && s.toList.all Char.isDigit

/-- Python `str(v).isdigit()`: `str` of an int is digit-only iff the int is
non-negative; `str` of a float contains a dot, never digit-only. -/
def strIsdigit : Value → Bool
  | .str s => pyIsdigitStr s
  | .int n => decide (0 ≤ n)
  | .float _ => false
  | .none => false

/-- Python `int(q)`: truncation toward zero. -/
def pyTrunc (q : ℚ) : ℤ := q.num.tdiv (q.den : ℤ)

/-- `np.mean` over rationals (call sites guard non-emptiness). -/
def qMean (xs : List ℚ) : ℚ := xs.sum / (xs.length : ℚ)

/-- `np.median`: middle of the sorted list, mean of the two middles when
the length is even. -/
def qMedian (xs : List ℚ) : ℚ :=
  let s := List.insertionSort (fun a b => a ≤ b) xs
  let n := s.length
  if n % 2 = 1 then s.getD (n / 2) 0
  else (s.getD (n / 2 - 1) 0 + s.getD (n / 2) 0) / 2

/-- One `Counter` update: bump the first `pyEqVal`-equal key, else append. -/
def counterAdd : List (Value × ℕ) → Value → List (Value × ℕ)
  | [], v => [(v, 1)]
  | (k, n) :: rest, v =>
    if pyEqVal k v then (k, n + 1) :: rest else (k, n) :: counterAdd rest v

/-- `collections.Counter(vs)` as an insertion-ordered association list. -/
def pyCounter (vs : List Value) : List (Value × ℕ) :=
  vs.foldl counterAdd []

/-- First-occurrence deduplication under an equality test (`seen` accumulates
already-kept elements). -/
def dedupByAux {α : Type} (eq : α → α → Bool) : List α → List α → List α
  | _, [] => []
  | seen, x :: xs =>
    if seen.any (fun y => eq y x) then dedupByAux eq seen xs
    else x :: dedupByAux eq (x :: seen) xs

/-- Python `max(xs, key=keyf)`: first maximal element wins ties. -/
def argmaxFirst {α : Type} (keyf : α → ℚ) : List α → Option α
  | [] => Option.none
  | x :: xs =>
    Option.some (xs.foldl (fun best y => if keyf y > keyf best then y else best) x)

/-! ### Output documents (Python dicts / lists serialized by the dashboard) -/

inductive JVal where
  | null
  | bool (b : Bool)
  | num (q : ℚ)
  | str (s : String)
  | list (xs : List JVal)
  | dict (kvs : List (String × JVal))
  | vdict (kvs : List (Value × JVal))

/-- Scalar value embedded into an output document. -/
def valToJ : Value → JVal
  | .str s => .str s
  | .int n => .num (n : ℚ)
  | .float q => .num q
  | .none => .null

/-- Python `str(v)` as used inside generated insight strings (`ℚ` rendering
approximates float `repr`; no claim inspects these characters). -/
def pyStr : Value → String
  | .str s => s
  | .int n => toString n
  | .float q => toString q
  | .none => "None"

/-- Counter rendered as a value-keyed dict. -/
def counterToJ (c : List (Value × ℕ)) : JVal :=
  .vdict (c.map (fun p => (p.1, JVal.num (p.2 : ℚ))))

/-- Lookup a key of a dict-shaped document. -/
def jLookup (j : JVal) (k : String) : Option JVal :=
  match j with
  | .dict kvs => (kvs.find? (fun p => p.1 == k)).map (fun p => p.2)
  | _ => Option.none

/-- Key list of a dict-shaped document. -/
def dictKeys : JVal → List String
  | .dict kvs => kvs.map (fun p => p.1)
  | _ => []

/-! ### Grouping stage (`defaultdict(list)` keyed by a resolved entity key) -/

/-- Append `r` to the group keyed (under Python `==`) by `k`, creating the
group at the end when no key matches — the insertion-order behaviour of
`defaultdict(list)`. -/
def insertGroup : List (Value × List Record) → Value → Record → List (Value × List Record)
  | [], k, r => [(k, [r])]
  | (k', rs) :: rest, k, r =>
    if pyEqVal k' k then (k', rs ++ [r]) :: rest
    else (k', rs) :: insertGroup rest k r

/-- `for record in records: groups[key(record)].append(record)`. -/
def groupByKey (key : Record → Value) (records : List Record) : List (Value × List Record) :=
  records.foldl (fun acc r => insertGroup acc (key r) r) []

/-- `record.get('participant_id', record.get('record_id', 'unknown'))`. -/
def participantKey (r : Record) : Value :=
  getFieldD r "participant_id" (getFieldD r "record_id" (.str "unknown"))

/-- `record.get('participant_id', record.get('record_id'))` (may be `None`). -/
def participantIdOpt (r : Record) : Option Value :=
  match getField r "participant_id" with
  | Option.some v => Option.some v
  | Option.none => getField r "record_id"

/-- `record.get('residence_type', record.get('location', 'unknown'))`. -/
def residenceKey (r : Record) : Value :=
  getFieldD r "residence_type" (getFieldD r "location" (.str "unknown"))

/-! ### Trend stage (`_analyze_trends`, `_get_date_range`) -/

/-- `isinstance(value, (int, float)) or (isinstance(value, str) and value.isdigit())`. -/
def trendCandidateVal : Value → Bool
  | .int _ => true
  | .float _ => true
  | .str s => pyIsdigitStr s
  | .none => false

/-- The `numeric_fields` list before deduplication: every field name, in
record-iteration order, whose value is a trend candidate. -/
def numericFieldsRaw (records : List Record) : List String :=
  (records.map (fun r => (r.filter (fun p => trendCandidateVal p.2)).map (fun p => p.1))).flatten

/-- Per-field values fed to the trend computation: present and truthy,
then `float(...)` with parse failures skipped. -/
def trendValues (field : String) (records : List Record) : List ℚ :=
  records.foldl (fun acc r =>
    match getField r field with
    | Option.some v =>
      if pyTruthy v then
        match pyFloat? v with
        | Option.some q => acc ++ [q]
        | Option.none => acc
      else acc
    | Option.none => acc) []

structure TrendEntry where
  trend : String
  change_percent : ℚ
  values : List ℚ
deriving DecidableEq

def TrendEntry.toJ (t : TrendEntry) : JVal :=
  .dict [("trend", .str t.trend),
         ("change_percent", .num t.change_percent),
         ("values", .list (t.values.map JVal.num))]

/-- The per-field trend bundle: only emitted for more than one value;
direction by strict `last > first`; percent change 0 when the first value
is 0; sample truncated to 10 values. -/
def trendOf (values : List ℚ) : Option TrendEntry :=
  if 1 < values.length then
    Option.some
      { trend := if values.getLast! > values.head! then "increasing" else "decreasing"
        change_percent :=
          if values.head! ≠ 0 then
            (values.getLast! - values.head!) / values.head! * 100
          else 0
        values := values.take 10 }
  else Option.none

/-- `_analyze_trends`: candidate fields deduplicated (the source's
`list(set(...))`; first-occurrence order fixed here, see header note),
capped to 5, each with at least 2 usable values. -/
def _analyze_trends (records : List Record) : List (String × TrendEntry) :=
  ((dedupByAux (fun a b => a == b) [] (numericFieldsRaw records)).take 5).foldl
    (fun acc field =>
      match trendOf (trendValues field records) with
      | Option.some t => acc ++ [(field, t)]
      | Option.none => acc) []

/-- Python `'date' in key.lower()`. -/
def containsDate (k : String) : Bool :=
  (k.toLower.splitOn "date").length > 1

/-- `_get_date_range` with the permissive `pd.to_datetime` abstracted as
`parseDate` (dates as day ordinals; the source formats them `%Y-%m-%d`). -/
def _get_date_range (parseDate : Value → Option ℤ) (records : List Record) : JVal :=
  let dates := (records.map (fun r =>
    r.filterMap (fun p =>
      if containsDate p.1 && pyTruthy p.2 then parseDate p.2 else Option.none))).flatten
  match dates with
  | [] => .dict [("start_date", .null), ("end_date", .null), ("duration_days", .num 0)]
  | d :: ds =>
    let mn := ds.foldl min d
    let mx := ds.foldl max d
    .dict [("start_date", .num (mn : ℚ)), ("end_date", .num (mx : ℚ)),
           ("duration_days", .num ((mx : ℚ) - (mn : ℚ)))]

/-! ### Field extraction and per-domain statistics -/

/-- Values of `field` across `data` through the truthiness filter:
`[record.get(field) for record in data if record.get(field)]`. -/
def truthyValues (field : String) (data : List Record) : List Value :=
  data.filterMap (fun r =>
    match getField r field with
    | Option.some v => if pyTruthy v then Option.some v else Option.none
    | Option.none => Option.none)

/-- Domain extraction shared by the sleep and medication analyses: keep the
allow-listed fields present in the record, skip records contributing none,
re-attach the resolved participant id (possibly `None`). -/
def extract_domain (fields : List String) (data : List Record) : List Record :=
  data.filterMap (fun record =>
    let sub := fields.filterMap (fun f => (getField record f).map (fun v => (f, v)))
    if sub.isEmpty then Option.none
    else Option.some (sub ++ [("participant_id", (participantIdOpt record).getD Value.none)]))

def healthcare_fields : List String :=
  ["healthcare_visits", "emergency_visits", "hospitalizations",
   "specialist_visits", "primary_care_visits", "medication_changes"]

def sleep_fields : List String :=
  ["sleep_quality", "sleep_duration", "sleep_disturbances",
   "bedtime", "wake_time", "sleep_efficiency"]

def medication_fields : List String :=
  ["medication_adherence", "missed_doses", "medication_changes",
   "side_effects", "adherence_score", "medication_count"]

structure UtilStat where
  count : ℕ
  average : ℚ
  distribution : List (Value × ℕ)
deriving DecidableEq

def UtilStat.toJ (s : UtilStat) : JVal :=
  .dict [("count", .num (s.count : ℚ)),
         ("average", .num s.average),
         ("distribution", counterToJ s.distribution)]

/-- One field's utilization statistic: emitted only when some truthy value
exists; the average runs over `float(v) for v in values if str(v).isdigit()`
(0 when no value has a digit-only string form); the distribution counts the
raw truthy values. -/
def utilStatFor (data : List Record) (field : String) : Option UtilStat :=
  let values := truthyValues field data
  if values.isEmpty then Option.none
  else
    Option.some
      { count := values.length
        average :=
          if values.any strIsdigit then
            qMean (values.filterMap (fun v =>
              if strIsdigit v then pyFloat? v else Option.none))
          else 0
        distribution := pyCounter values }

/-- The `utilization_stats` dict, in `healthcare_fields` order. -/
def utilization_stats (data : List Record) : List (String × UtilStat) :=
  healthcare_fields.foldl (fun acc field =>
    match utilStatFor data field with
    | Option.some s => acc ++ [(field, s)]
    | Option.none => acc) []

/-- `len(set(r.get('participant_id', r.get('record_id')) for r in data))`. -/
def distinctIdCount (data : List Record) : ℕ :=
  (dedupByAux pyEqOpt [] (data.map participantIdOpt)).length

def _summarize_utilization (stats : List (String × UtilStat)) : String :=
  if stats.isEmpty then "Nenhum dado de utilização disponível"
  else
    let total_visits := (stats.map (fun p => p.2.count)).sum
    let most_common :=
      match argmaxFirst (fun p => ((p.2.count : ℚ))) stats with
      | Option.some p => p.1
      | Option.none => ""
    "Total de " ++ toString total_visits ++ " utilizações registradas. Mais comum: "
      ++ most_common

def analyze_healthcare_utilization (data : List Record) : JVal :=
  if data.isEmpty then .dict [("message", .str "Nenhum dado disponível")]
  else
    let stats := utilization_stats data
    .dict [("total_participants", .num ((distinctIdCount data : ℚ))),
           ("utilization_stats", .dict (stats.map (fun p => (p.1, p.2.toJ)))),
           ("summary", .str (_summarize_utilization stats))]

/-! ### Longitudinal analysis -/

def analyze_longitudinal_data (parseDate : Value → Option ℤ) (data : List Record) : JVal :=
  if data.isEmpty then
    .dict [("message", .str "Nenhum dado disponível"), ("participants", .list [])]
  else
    let groups := groupByKey participantKey data
    .dict [("total_participants", .num ((groups.length : ℚ))),
           ("participants", .list (groups.map (fun p =>
             .dict [("id", valToJ p.1),
                    ("total_records", .num ((p.2.length : ℚ))),
                    ("date_range", _get_date_range parseDate p.2),
                    ("trends", .dict ((_analyze_trends p.2).map
                      (fun t => (t.1, t.2.toJ))))])))]

/-! ### Sleep analysis -/

def _analyze_sleep_quality (sleep_data : List Record) : JVal :=
  let quality_scores :=
    sleep_data.filterMap (fun r => (getField r "sleep_quality").bind pyFloat?)
  if quality_scores.isEmpty then
    .dict [("average", .num 0), ("median", .num 0), ("distribution", .dict [])]
  else
    .dict [("average", .num (qMean quality_scores)),
           ("median", .num (qMedian quality_scores)),
           ("distribution",
             counterToJ (pyCounter (quality_scores.map (fun q => Value.int (pyTrunc q)))))]

def _analyze_sleep_duration (sleep_data : List Record) : JVal :=
  let durations :=
    sleep_data.filterMap (fun r => (getField r "sleep_duration").bind pyFloat?)
  if durations.isEmpty then
    .dict [("average_hours", .num 0),
           ("recommended_range", .list [.num 7, .num 9]),
           ("within_range_percent", .num 0)]
  else
    .dict [("average_hours", .num (qMean durations)),
           ("recommended_range", .list [.num 7, .num 9]),
           ("within_range_percent",
             .num ((((durations.filter (fun d => decide (7 ≤ d ∧ d ≤ 9))).length : ℚ))
               / (durations.length : ℚ) * 100))]

def _identify_sleep_patterns (sleep_data : List Record) : JVal :=
  let b := decide (5 < sleep_data.length)
  .dict [("consistent_bedtime", .bool b),
         ("regular_wake_time", .bool b),
         ("adequate_duration", .bool b)]

def analyze_sleep_patterns (data : List Record) : JVal :=
  if data.isEmpty then .dict [("message", .str "Nenhum dado disponível")]
  else
    let sleep_data := extract_domain sleep_fields data
    .dict [("total_sleep_records", .num ((sleep_data.length : ℚ))),
           ("sleep_quality_stats", _analyze_sleep_quality sleep_data),
           ("sleep_duration_stats", _analyze_sleep_duration sleep_data),
           ("patterns", _identify_sleep_patterns sleep_data)]

/-! ### Medication analysis (`Except`: the source compares possibly-string
values against ints without a guard) -/

/-- Python `v > 0`: a `TypeError` when `v` is not a number. -/
def pyGtZero : Value → Except String Bool
  | .int n => .ok (decide (0 < n))
  | .float q => .ok (decide (0 < q))
  | .str _ =>
    .error "TypeError: '>' not supported between instances of 'str' and 'int'"
  | .none =>
    .error "TypeError: '>' not supported between instances of 'NoneType' and 'int'"

/-- Python `v < 80`: a `TypeError` when `v` is not a number. -/
def pyLt80 : Value → Except String Bool
  | .int n => .ok (decide (n < 80))
  | .float q => .ok (decide (q < 80))
  | .str _ =>
    .error "TypeError: '<' not supported between instances of 'str' and 'int'"
  | .none =>
    .error "TypeError: '<' not supported between instances of 'NoneType' and 'int'"

def _calculate_adherence_stats (adherence_data : List Record) : JVal :=
  let adherence_scores :=
    adherence_data.filterMap (fun r => (getField r "adherence_score").bind pyFloat?)
  if adherence_scores.isEmpty then
    .dict [("average_adherence", .num 0),
           ("high_adherence_percent", .num 0),
           ("low_adherence_count", .num 0)]
  else
    .dict [("average_adherence", .num (qMean adherence_scores)),
           ("high_adherence_percent",
             .num ((((adherence_scores.filter (fun s => decide (80 ≤ s))).length : ℚ))
               / (adherence_scores.length : ℚ) * 100)),
           ("low_adherence_count",
             .num (((adherence_scores.filter (fun s => decide (s < 50))).length : ℚ)))]

def _identify_adherence_risks (adherence_data : List Record) : Except String (List String) := do
  let missed ← adherence_data.foldlM (fun n r => do
    let b ← pyGtZero (getFieldD r "missed_doses" (Value.int 0))
    pure (if b then n + 1 else n)) (0 : ℕ)
  let risks := if 0 < missed then
    [toString missed ++ " participantes com doses perdidas"] else []
  let side := (adherence_data.filter (fun r => truthyOpt (getField r "side_effects"))).length
  pure (risks ++ (if 0 < side then
    [toString side ++ " participantes relataram efeitos colaterais"] else []))

def _generate_adherence_recommendations (adherence_data : List Record) :
    Except String (List String) :=
  let recommendations :=
    ["Implementar lembretes de medicação",
     "Monitoramento regular da adesão",
     "Educação sobre importância do tratamento"]
  if 0 < adherence_data.length then do
    let low ← adherence_data.foldlM (fun n r => do
      let b ← pyLt80 (getFieldD r "adherence_score" (Value.int 100))
      pure (if b then n + 1 else n)) (0 : ℕ)
    pure (recommendations ++ (if 0 < low then
      ["Foco especial em " ++ toString low ++ " participantes com baixa adesão"] else []))
  else pure recommendations

def analyze_medication_adherence (data : List Record) : Except String JVal :=
  if data.isEmpty then .ok (.dict [("message", .str "Nenhum dado disponível")])
  else
    let adherence_data := extract_domain medication_fields data
    do
      let risks ← _identify_adherence_risks adherence_data
      let recs ← _generate_adherence_recommendations adherence_data
      pure (.dict [("total_medication_records", .num ((adherence_data.length : ℚ))),
                   ("adherence_stats", _calculate_adherence_stats adherence_data),
                   ("risk_factors", .list (risks.map JVal.str)),
                   ("recommendations", .list (recs.map JVal.str))])

/-! ### Residence analysis (`Except`: `np.mean` over raw record values
raises when any value is a string) -/

/-- `np.mean(vs)` over raw record values: numeric values average exactly,
any string (or `None`) raises. -/
def npMean (vs : List Value) : Except String ℚ :=
  if vs.all (fun v => (pyFloat? v).isSome && !(match v with | .str _ => true | _ => false)) then
    .ok (qMean (vs.filterMap (fun v => match v with
      | .int n => Option.some ((n : ℚ))
      | .float q => Option.some q
      | _ => Option.none)))
  else .error "TypeError: cannot perform reduce with flexible type"

structure ResidenceMetrics where
  health_score_avg : ℚ
  satisfaction_avg : ℚ
  activity_level_avg : ℚ
deriving DecidableEq

def ResidenceMetrics.toJ (m : ResidenceMetrics) : JVal :=
  .dict [("health_score_avg", .num m.health_score_avg),
         ("satisfaction_avg", .num m.satisfaction_avg),
         ("activity_level_avg", .num m.activity_level_avg)]

def _calculate_residence_metrics (records : List Record) : Except String ResidenceMetrics := do
  let health_scores := truthyValues "health_score" records
  let avg ← if health_scores.isEmpty then pure 0 else npMean health_scores
  pure { health_score_avg := avg, satisfaction_avg := 0, activity_level_avg := 0 }

def _analyze_residence_demographics (records : List Record) : Except String JVal := do
  let ages := truthyValues "age" records
  let genders := truthyValues "gender" records
  let avgAge ← if ages.isEmpty then pure 0 else npMean ages
  pure (.dict [("average_age", .num avgAge),
               ("gender_distribution", counterToJ (pyCounter genders)),
               ("total_participants", .num ((records.length : ℚ)))])

structure ResidenceEntry where
  participant_count : ℕ
  health_metrics : ResidenceMetrics
  demographics : JVal

def ResidenceEntry.toJ (e : ResidenceEntry) : JVal :=
  .dict [("participant_count", .num ((e.participant_count : ℚ))),
         ("health_metrics", e.health_metrics.toJ),
         ("demographics", e.demographics)]

/-- The per-residence comparison dict, built group by group (metrics, then
demographics; the first raising group aborts, as in the source loop). -/
def buildComparison (groups : List (Value × List Record)) :
    Except String (List (Value × ResidenceEntry)) :=
  groups.foldlM (fun acc p => do
    let metrics ← _calculate_residence_metrics p.2
    let demo ← _analyze_residence_demographics p.2
    pure (acc ++ [(p.1, ⟨p.2.length, metrics, demo⟩)])) []

def _generate_residence_insights (comparison : List (Value × ResidenceEntry)) : List String :=
  if 1 < comparison.length then
    let bestName :=
      match argmaxFirst (fun p => p.2.health_metrics.health_score_avg) comparison with
      | Option.some p => pyStr p.1
      | Option.none => ""
    let total := (comparison.map (fun p => p.2.participant_count)).sum
    ["Melhor performance de saúde: " ++ bestName,
     "Total de " ++ toString total ++ " participantes distribuídos entre "
       ++ toString comparison.length ++ " residências"]
  else []

def analyze_residence_comparison (data : List Record) : Except String JVal :=
  if data.isEmpty then .ok (.dict [("message", .str "Nenhum dados disponível")])
  else
    let groups := groupByKey residenceKey data
    do
      let comparison ← buildComparison groups
      pure (.dict [("total_residences", .num ((groups.length : ℚ))),
                   ("comparison", .vdict (comparison.map (fun p => (p.1, p.2.toJ)))),
                   ("insights", .list ((_generate_residence_insights comparison).map JVal.str))])

/-! ### The class: `__init__` stores the record list; no method writes any
attribute or mutates a record, so each method is state-passing with the
state returned unchanged. -/

structure RM4HealthAnalytics where
  data : List Record
  processed_data : List Record
deriving DecidableEq

/-- `__init__`: `self.data = data if data else []`,
`self.processed_data = self.data.copy()`. -/
def RM4HealthAnalytics.init (input : List Record) : RM4HealthAnalytics :=
  let d := if input.isEmpty then [] else input
  { data := d, processed_data := d }

def longitudinalDoc : (Value → Option ℤ) → List Record → JVal :=
  analyze_longitudinal_data

def healthcareDoc : List Record → JVal := analyze_healthcare_utilization

def sleepDoc : List Record → JVal := analyze_sleep_patterns

def medicationDoc : List Record → Except String JVal := analyze_medication_adherence

def residenceDoc : List Record → Except String JVal := analyze_residence_comparison

def RM4HealthAnalytics.analyze_longitudinal_data (self : RM4HealthAnalytics)
    (parseDate : Value → Option ℤ) : JVal × RM4HealthAnalytics :=
  (longitudinalDoc parseDate self.data, self)

def RM4HealthAnalytics.analyze_healthcare_utilization (self : RM4HealthAnalytics) :
    JVal × RM4HealthAnalytics :=
  (healthcareDoc self.data, self)

def RM4HealthAnalytics.analyze_sleep_patterns (self : RM4HealthAnalytics) :
    JVal × RM4HealthAnalytics :=
  (sleepDoc self.data, self)

def RM4HealthAnalytics.analyze_medication_adherence (self : RM4HealthAnalytics) :
    Except String JVal × RM4HealthAnalytics :=
  (medicationDoc self.data, self)

def RM4HealthAnalytics.analyze_residence_comparison (self : RM4HealthAnalytics) :
    Except String JVal × RM4HealthAnalytics :=
  (residenceDoc self.data, self)

/-- The record's value at `field` is absent or falsy — `record.get(field)`
fails the source's truthiness test. -/
def falsyAt (r : Record) (field : String) : Bool :=
  !truthyOpt (getField r field)

/-- Two residences, numeric-only fields: a successful two-group comparison. -/
def residenceDemoData : List Record :=
  [[("residence_type", Value.str "a"), ("health_score", Value.int 4)],
   [("residence_type", Value.str "b")]]

/-- The document the residence comparison returns on `residenceDemoData`. -/
def residenceDemoDoc : JVal :=
  match analyze_residence_comparison residenceDemoData with
  | Except.ok d => d
  | Except.error _ => JVal.null

/-- The four records of the coercion claim, carried by the utilization field:
string "12", string "abc", native 7.5, and one record missing the field. -/
def coercionUtilData : List Record :=
  [[("healthcare_visits", Value.str "12")],
   [("healthcare_visits", Value.str "abc")],
   [("healthcare_visits", Value.float (15 / 2))],
   [("other", Value.int 1)]]

/-- The same four values carried by the sleep-quality field. -/
def coercionSleepData : List Record :=
  [[("sleep_quality", Value.str "12")],
   [("sleep_quality", Value.str "abc")],
   [("sleep_quality", Value.float (15 / 2))],
   [("other", Value.int 1)]]


/-! ### Theorems -/

/-- C5: for every ordered list of numeric trend values, fewer than 2 values
yields no trend entry; `[5, 5]` yields direction "decreasing" with
change_percent 0; `[0, 10]` yields "increasing" with change_percent 0 (the
`first == 0` sentinel); in general the direction is "increasing" iff the last
value strictly exceeds the first, otherwise "decreasing", and change_percent
is `(last - first) / first * 100` whenever the first value is non-zero. -/
theorem claim5_trend_contract (values : List ℚ) :
    (values.length < 2 → trendOf values = Option.none) ∧
    (∀ t : TrendEntry, trendOf values = Option.some t →
      (t.trend = "increasing" ↔ values.head! < values.getLast!) ∧
      (t.trend = "decreasing" ↔ ¬ values.head! < values.getLast!) ∧
      (values.head! ≠ 0 →
        t.change_percent = (values.getLast! - values.head!) / values.head! * 100) ∧
      (values.head! = 0 → t.change_percent = 0)) ∧
    trendOf [5, 5] = Option.some ⟨"decreasing", 0, [5, 5]⟩ ∧
    trendOf [0, 10] = Option.some ⟨"increasing", 0, [0, 10]⟩ := by
  refine ⟨?_, ?_, by norm_num [trendOf, List.getLast!], by norm_num [trendOf, List.getLast!]⟩
  · intro h
    rw [trendOf, if_neg (by omega)]
  · intro t ht
    by_cases h : 1 < values.length
    · rw [trendOf, if_pos h] at ht
      obtain rfl := (Option.some_inj.mp ht).symm
      refine ⟨?_, ?_, fun h0 => by simp [h0], fun h0 => by simp [h0]⟩
      · by_cases hc : values.head! < values.getLast! <;> simp [hc]
      · by_cases hc : values.head! < values.getLast! <;> simp [hc]
    · rw [trendOf, if_neg h] at ht
      exact absurd ht (by simp)

/-- Witness for C5: the contract applied at the concrete inputs `[7]`,
`[5, 5]` and `[1, 3]`, with every hypothesis discharged there. -/
theorem claim5_trend_contract_witness :
    trendOf [(7 : ℚ)] = Option.none ∧
    trendOf [5, 5] = Option.some ⟨"decreasing", 0, [5, 5]⟩ ∧
    ((⟨"increasing", 200, [1, 3]⟩ : TrendEntry).trend = "increasing" ↔ (1 : ℚ) < 3) ∧
    (⟨"increasing", 200, [1, 3]⟩ : TrendEntry).change_percent = ((3 : ℚ) - 1) / 1 * 100 := by
  refine ⟨(claim5_trend_contract [7]).1 (by decide),
          (claim5_trend_contract [5, 5]).2.2.1, ?_, ?_⟩
  · exact ((claim5_trend_contract [1, 3]).2.1 ⟨"increasing", 200, [1, 3]⟩
      (by norm_num [trendOf, List.getLast!])).1
  · exact ((claim5_trend_contract [1, 3]).2.1 ⟨"increasing", 200, [1, 3]⟩
      (by norm_num [trendOf, List.getLast!])).2.2.1 (by decide)

/-- C1 (evaluation at the failing inputs): a single record whose
`missed_doses` is the string "3" makes the medication analysis raise
`TypeError` (the source compares `r.get('missed_doses', 0) > 0` without
coercion), and a single record whose `health_score` is the string "5" makes
the residence analysis raise (`np.mean` over a string-valued array) — so
malformed string values are not merely skipped there. -/
theorem claim1_typeerror_eval :
    analyze_medication_adherence [[("missed_doses", Value.str "3")]] =
      .error "TypeError: '>' not supported between instances of 'str' and 'int'" ∧
    analyze_residence_comparison [[("health_score", Value.str "5")]] =
      .error "TypeError: cannot perform reduce with flexible type" :=
  ⟨rfl, rfl⟩

/-- C2 (counterexample): on the empty collection the longitudinal analysis
returns two keys, `message` and `participants`, not exactly one. -/
theorem claim2_single_key_cex :
    dictKeys (analyze_longitudinal_data (fun _ => Option.none) []) =
      ["message", "participants"] ∧
    (["message", "participants"] : List String).length ≠ 1 :=
  ⟨rfl, by decide⟩

/-- C2 (amended): on the empty collection the healthcare, sleep, medication
and residence analyses each return a document with exactly the sentinel
`message` key (the residence message string differs slightly), while the
longitudinal analysis returns the sentinel message plus a second
`participants` key holding an empty list. -/
theorem claim2_empty_contract (parseDate : Value → Option ℤ) :
    analyze_longitudinal_data parseDate [] =
      .dict [("message", .str "Nenhum dado disponível"), ("participants", .list [])] ∧
    analyze_healthcare_utilization [] =
      .dict [("message", .str "Nenhum dado disponível")] ∧
    analyze_sleep_patterns [] =
      .dict [("message", .str "Nenhum dado disponível")] ∧
    analyze_medication_adherence [] =
      .ok (.dict [("message", .str "Nenhum dado disponível")]) ∧
    analyze_residence_comparison [] =
      .ok (.dict [("message", .str "Nenhum dados disponível")]) :=
  ⟨rfl, rfl, rfl, rfl, rfl⟩

/-- C3 (counterexample): in the healthcare-utilization analysis the average
over the mixed field is 12 — only the digit-only string "12" is coerced; the
native float 7.5 is excluded by the `str(v).isdigit()` test — not the mean
9.75 of `[12, 7.5]` the claim requires. -/
theorem claim3_coercion_cex :
    (utilStatFor coercionUtilData "healthcare_visits").map UtilStat.average =
      Option.some 12 ∧
    (12 : ℚ) ≠ (12 + 15 / 2) / 2 := by
  refine ⟨?_, by norm_num⟩
  simp +decide [utilStatFor, truthyValues, coercionUtilData, getField, List.find?, pyTruthy,
    strIsdigit, pyIsdigitStr, pyFloat?, parseFloatStr?, digitsVal, qMean, pyCounter,
    counterAdd, pyEqVal]

/-- C3 (amended): on the mixed field the two halves of the claim hold in
different analyses. The sleep-quality statistics compute mean and median over
exactly the coerced subset `[12, 7.5]` (both 9.75), but their distribution
counts the truncated coerced ints 12 and 7, not the raw values; the
healthcare-utilization distribution counts the 3 present raw values including
"abc", but its average runs only over the digit-only-string subset `[12]`. -/
theorem claim3_coercion_split :
    utilStatFor coercionUtilData "healthcare_visits" =
      Option.some ⟨3, 12,
        [(Value.str "12", 1), (Value.str "abc", 1), (Value.float (15 / 2), 1)]⟩ ∧
    _analyze_sleep_quality (extract_domain sleep_fields coercionSleepData) =
      .dict [("average", .num (39 / 4)), ("median", .num (39 / 4)),
             ("distribution", counterToJ [(Value.int 12, 1), (Value.int 7, 1)])] ∧
    qMean [12, 15 / 2] = 39 / 4 ∧ qMedian [12, 15 / 2] = 39 / 4 := by
  refine ⟨?_, ?_, by norm_num [qMean], ?_⟩
  · simp +decide [utilStatFor, truthyValues, coercionUtilData, getField, List.find?, pyTruthy,
      strIsdigit, pyIsdigitStr, pyFloat?, parseFloatStr?, digitsVal, qMean, pyCounter,
      counterAdd, pyEqVal]
  · simp +decide [_analyze_sleep_quality, extract_domain, coercionSleepData, sleep_fields,
      getField, List.find?, pyFloat?, parseFloatStr?, digitsVal, qMean, qMedian,
      List.insertionSort, List.orderedInsert, pyCounter, counterAdd, pyEqVal, pyTrunc,
      participantIdOpt, counterToJ, Int.tdiv]
    norm_num
  · norm_num [qMedian, List.insertionSort, List.orderedInsert]

/-- C7: the engine holds no mutable state: `__init__` stores exactly the
input records, every one of the five analysis methods returns the object
state unchanged (no record mutated, added, or removed), and calling the same
analysis twice on the same object yields equal documents. -/
theorem claim7_no_mutation (parseDate : Value → Option ℤ) (input : List Record) :
    ((RM4HealthAnalytics.init input).analyze_longitudinal_data parseDate).2 =
      RM4HealthAnalytics.init input ∧
    ((RM4HealthAnalytics.init input).analyze_healthcare_utilization).2 =
      RM4HealthAnalytics.init input ∧
    ((RM4HealthAnalytics.init input).analyze_sleep_patterns).2 =
      RM4HealthAnalytics.init input ∧
    ((RM4HealthAnalytics.init input).analyze_medication_adherence).2 =
      RM4HealthAnalytics.init input ∧
    ((RM4HealthAnalytics.init input).analyze_residence_comparison).2 =
      RM4HealthAnalytics.init input ∧
    (RM4HealthAnalytics.init input).data = input ∧
    (RM4HealthAnalytics.init input).processed_data = input ∧
    ((RM4HealthAnalytics.init input).analyze_longitudinal_data parseDate).1 =
      (((RM4HealthAnalytics.init input).analyze_longitudinal_data parseDate).2.analyze_longitudinal_data
        parseDate).1 ∧
    ((RM4HealthAnalytics.init input).analyze_healthcare_utilization).1 =
      (((RM4HealthAnalytics.init input).analyze_healthcare_utilization).2.analyze_healthcare_utilization).1 ∧
    ((RM4HealthAnalytics.init input).analyze_sleep_patterns).1 =
      (((RM4HealthAnalytics.init input).analyze_sleep_patterns).2.analyze_sleep_patterns).1 ∧
    ((RM4HealthAnalytics.init input).analyze_medication_adherence).1 =
      (((RM4HealthAnalytics.init input).analyze_medication_adherence).2.analyze_medication_adherence).1 ∧
    ((RM4HealthAnalytics.init input).analyze_residence_comparison).1 =
      (((RM4HealthAnalytics.init input).analyze_residence_comparison).2.analyze_residence_comparison).1 := by
  refine ⟨rfl, rfl, rfl, rfl, rfl, ?_, ?_, rfl, rfl, rfl, rfl, rfl⟩
  · cases input <;> rfl
  · cases input <;> rfl

/-- C8: a falsy field value behaves exactly like a missing one in the
truthiness-filtered value lists, hence in the per-field utilization
count/average/distribution and in the residence health-score and age means
(which are computed from `truthyValues "health_score"` and
`truthyValues "age"`): a record whose value at the field is 0, 0.0, "" or
absent contributes nothing. -/
theorem claim8_falsy_excluded (r : Record) (data : List Record) (field : String)
    (h : falsyAt r field = true) :
    truthyValues field (r :: data) = truthyValues field data ∧
    utilStatFor (r :: data) field = utilStatFor data field ∧
    falsyAt [(field, Value.int 0)] field = true ∧
    falsyAt [(field, Value.float 0)] field = true ∧
    falsyAt [(field, Value.str "")] field = true ∧
    falsyAt [] field = true := by
  have hv : truthyValues field (r :: data) = truthyValues field data := by
    unfold truthyValues
    rw [List.filterMap_cons]
    unfold falsyAt truthyOpt at h
    cases hg : getField r field with
    | none => simp [hg]
    | some v =>
      rw [hg] at h
      simp only [Bool.not_eq_true'] at h
      simp [hg, h]
  refine ⟨hv, ?_, ?_, ?_, ?_, ?_⟩
  · unfold utilStatFor
    rw [hv]
  · simp +decide [falsyAt, getField, truthyOpt, pyTruthy, List.find?]
  · simp +decide [falsyAt, getField, truthyOpt, pyTruthy, List.find?]
  · simp +decide [falsyAt, getField, truthyOpt, pyTruthy, List.find?]
  · simp +decide [falsyAt, getField, truthyOpt, List.find?]

/-- Witness for C8: a record carrying `healthcare_visits = 0` leaves the
utilization value list and the field's statistics of the remaining data
unchanged. -/
theorem claim8_falsy_excluded_witness :
    truthyValues "healthcare_visits"
        ([("healthcare_visits", Value.int 0)] :: [[("healthcare_visits", Value.int 3)]]) =
      truthyValues "healthcare_visits" [[("healthcare_visits", Value.int 3)]] ∧
    utilStatFor ([("healthcare_visits", Value.int 0)] :: [[("healthcare_visits", Value.int 3)]])
        "healthcare_visits" =
      utilStatFor [[("healthcare_visits", Value.int 3)]] "healthcare_visits" :=
  ⟨(claim8_falsy_excluded _ _ _ (by decide)).1,
   (claim8_falsy_excluded _ _ _ (by decide)).2.1⟩

/-- Elements surviving first-occurrence deduplication come from the input. -/
theorem mem_dedupByAux {α : Type} (eq : α → α → Bool) :
    ∀ (seen l : List α) (x : α), x ∈ dedupByAux eq seen l → x ∈ l := by
  intro seen l
  induction l generalizing seen with
  | nil => intro x hx; rw [dedupByAux] at hx; exact absurd hx (List.not_mem_nil x)
  | cons a t ih =>
    intro x hx
    rw [dedupByAux] at hx
    by_cases hc : (seen.any (fun y => eq y a)) = true
    · rw [if_pos hc] at hx
      exact List.mem_cons_of_mem a (ih seen x hx)
    · rw [if_neg hc] at hx
      rcases List.mem_cons.mp hx with h | h
      · exact h ▸ List.mem_cons_self a t
      · exact List.mem_cons_of_mem a (ih (a :: seen) x h)

/-- Keys emitted by the trend-folding loop come from the accumulator or from
the iterated field list. -/
theorem trends_foldl_keys (records : List Record) (fields : List String) :
    ∀ (acc : List (String × TrendEntry)) (x : String),
      x ∈ ((fields.foldl (fun acc field =>
        match trendOf (trendValues field records) with
        | Option.some t => acc ++ [(field, t)]
        | Option.none => acc) acc).map (fun p => p.1)) →
      x ∈ acc.map (fun p => p.1) ∨ x ∈ fields := by
  induction fields with
  | nil => intro acc x hx; exact Or.inl hx
  | cons f fs ih =>
    intro acc x hx
    rw [List.foldl_cons] at hx
    rcases ih _ x hx with h | h
    · cases ht : trendOf (trendValues f records) with
      | none => rw [ht] at h; exact Or.inl h
      | some t =>
        rw [ht] at h
        rw [List.map_append] at h
        rcases List.mem_append.mp h with h' | h'
        · exact Or.inl h'
        · simp at h'
          exact Or.inr (h' ▸ List.mem_cons_self f fs)
    · exact Or.inr (List.mem_cons_of_mem f h)

/-- An association list without the key looks it up to `none`. -/
theorem lookup_eq_none_of_not_mem_keys (field : String) :
    ∀ l : List (String × TrendEntry), field ∉ l.map (fun p => p.1) →
      List.lookup field l = Option.none := by
  intro l
  induction l with
  | nil => intro _; rfl
  | cons a t ih =>
    intro h
    simp only [List.map_cons, List.mem_cons] at h
    push_neg at h
    rw [List.lookup]
    have : (field == a.1) = false := by
      simp [h.1]
    rw [this]
    exact ih h.2

/-- C9: a field is a trend candidate iff some record holds it with a native
number or a digit-only string; a field all of whose occurrences are
non-digit-only strings (such as "7.5" or "-3") never appears in the trend
output — even though the coercion applied after selection parses exactly
those strings. -/
theorem claim9_candidate_fields (records : List Record) (field : String) :
    (field ∈ numericFieldsRaw records ↔
      ∃ r ∈ records, ∃ p ∈ r, p.1 = field ∧ trendCandidateVal p.2 = true) ∧
    ((∀ r ∈ records, ∀ p ∈ r, p.1 = field → trendCandidateVal p.2 = false) →
      List.lookup field (_analyze_trends records) = Option.none) ∧
    pyFloat? (Value.str "7.5") = Option.some (15 / 2) ∧
    pyFloat? (Value.str "-3") = Option.some (-3) ∧
    trendCandidateVal (Value.str "7.5") = false ∧
    trendCandidateVal (Value.str "-3") = false := by
  have hmem : field ∈ numericFieldsRaw records ↔
      ∃ r ∈ records, ∃ p ∈ r, p.1 = field ∧ trendCandidateVal p.2 = true := by
    simp only [numericFieldsRaw, List.mem_flatten, List.mem_map, List.mem_filter]
    constructor
    · rintro ⟨l, ⟨r, hr, rfl⟩, hfl⟩
      obtain ⟨p, hp, rfl⟩ := List.mem_map.mp hfl
      exact ⟨r, hr, p, (List.mem_filter.mp hp).1, rfl, (List.mem_filter.mp hp).2⟩
    · rintro ⟨r, hr, p, hp, rfl, hc⟩
      exact ⟨(r.filter (fun p => trendCandidateVal p.2)).map (fun p => p.1),
        ⟨r, hr, rfl⟩, List.mem_map.mpr ⟨p, List.mem_filter.mpr ⟨hp, hc⟩, rfl⟩⟩
  refine ⟨hmem, ?_,
    by simp +decide [pyFloat?, parseFloatStr?, digitsVal]; norm_num,
    by simp +decide [pyFloat?, parseFloatStr?, digitsVal], by decide, by decide⟩
  intro hall
  apply lookup_eq_none_of_not_mem_keys
  intro hin
  rcases trends_foldl_keys records _ [] field hin with h | h
  · simp at h
  · have h5 : field ∈ dedupByAux (fun a b => a == b) [] (numericFieldsRaw records) :=
      List.take_subset 5 _ h
    have h6 : field ∈ numericFieldsRaw records := mem_dedupByAux _ _ _ _ h5
    obtain ⟨r, hr, p, hp, hpf, hc⟩ := hmem.mp h6
    rw [hall r hr p hp hpf] at hc
    exact absurd hc (by simp)

/-- Witness for C9: a record whose only field holds the string "7.5" makes
that field no trend candidate, so the trend output has no entry for it. -/
theorem claim9_candidate_fields_witness :
    List.lookup "x" (_analyze_trends [[("x", Value.str "7.5")]]) = Option.none :=
  (claim9_candidate_fields [[("x", Value.str "7.5")]] "x").2.1 (by decide)

/-- Python equality on scalar values is reflexive. -/
theorem pyEqVal_refl (v : Value) : pyEqVal v v = true := by
  cases v <;> simp [pyEqVal]

/-- Flattening the groups after one insertion permutes to consing the
inserted record onto the old flattening. -/
theorem insertGroup_flatten_perm (acc : List (Value × List Record)) (k : Value) (r : Record) :
    (((insertGroup acc k r).map (fun p => p.2)).flatten).Perm
      (r :: ((acc.map (fun p => p.2)).flatten)) := by
  induction acc with
  | nil => simp [insertGroup]
  | cons hd tl ih =>
    obtain ⟨k', rs⟩ := hd
    rw [insertGroup]
    by_cases h : pyEqVal k' k = true
    · rw [if_pos h]
      simp only [List.map_cons, List.flatten_cons]
      have e : (rs ++ [r]) ++ ((tl.map (fun p => p.2)).flatten) =
          rs ++ (r :: ((tl.map (fun p => p.2)).flatten)) := by simp
      rw [e]
      exact List.perm_middle
    · rw [if_neg h]
      simp only [List.map_cons, List.flatten_cons]
      exact (List.Perm.append_left rs ih).trans List.perm_middle

/-- Folding the grouping step over `records` permutes the flattening to the
old flattening followed by the records. -/
theorem groupFold_flatten_perm (key : Record → Value) (records : List Record) :
    ∀ acc : List (Value × List Record),
      ((((records.foldl (fun acc r => insertGroup acc (key r) r) acc).map
        (fun p => p.2)).flatten)).Perm (((acc.map (fun p => p.2)).flatten) ++ records) := by
  induction records with
  | nil => intro acc; simp
  | cons r t ih =>
    intro acc
    rw [List.foldl_cons]
    exact ((ih (insertGroup acc (key r) r)).trans
      ((insertGroup_flatten_perm acc (key r) r).append_right t)).trans
      List.perm_middle.symm

/-- Every member of a group produced by one insertion matches its group key
under Python equality, given the accumulator already satisfied this. -/
theorem insertGroup_members (key : Record → Value) (r : Record) :
    ∀ acc : List (Value × List Record),
      (∀ p ∈ acc, ∀ x ∈ p.2, pyEqVal p.1 (key x) = true) →
      ∀ p ∈ insertGroup acc (key r) r, ∀ x ∈ p.2, pyEqVal p.1 (key x) = true := by
  intro acc
  induction acc with
  | nil =>
    intro _ p hp x hx
    rw [insertGroup] at hp
    simp only [List.mem_singleton] at hp
    subst hp
    simp only [List.mem_singleton] at hx
    subst hx
    exact pyEqVal_refl (key x)
  | cons hd tl ih =>
    intro hacc p hp x hx
    obtain ⟨k', rs⟩ := hd
    rw [insertGroup] at hp
    by_cases h : pyEqVal k' (key r) = true
    · rw [if_pos h] at hp
      rcases List.mem_cons.mp hp with h' | h'
      · subst h'
        rcases List.mem_append.mp hx with hx' | hx'
        · exact hacc (k', rs) (List.mem_cons_self _ _) x hx'
        · simp only [List.mem_singleton] at hx'
          subst hx'
          exact h
      · exact hacc p (List.mem_cons_of_mem _ h') x hx
    · rw [if_neg h] at hp
      rcases List.mem_cons.mp hp with h' | h'
      · subst h'
        exact hacc (k', rs) (List.mem_cons_self _ _) x hx
      · exact ih (fun q hq => hacc q (List.mem_cons_of_mem _ hq)) p h' x hx

/-- Every member of every group of `groupByKey` matches its group key. -/
theorem groupByKey_members (key : Record → Value) (records : List Record) :
    ∀ p ∈ groupByKey key records, ∀ x ∈ p.2, pyEqVal p.1 (key x) = true := by
  rw [groupByKey]
  suffices h : ∀ acc : List (Value × List Record),
      (∀ p ∈ acc, ∀ x ∈ p.2, pyEqVal p.1 (key x) = true) →
      ∀ p ∈ records.foldl (fun acc r => insertGroup acc (key r) r) acc,
        ∀ x ∈ p.2, pyEqVal p.1 (key x) = true by
    exact h [] (by simp)
  induction records with
  | nil => intro acc hacc; simpa using hacc
  | cons r t ih =>
    intro acc hacc
    rw [List.foldl_cons]
    exact ih _ (insertGroup_members key r acc hacc)

/-- The key list after one insertion: unchanged when the key already exists,
otherwise the key is appended. -/
theorem insertGroup_keys (k : Value) (r : Record) :
    ∀ acc : List (Value × List Record),
      (insertGroup acc k r).map (fun p => p.1) =
        if acc.any (fun p => pyEqVal p.1 k) then acc.map (fun p => p.1)
        else acc.map (fun p => p.1) ++ [k] := by
  intro acc
  induction acc with
  | nil => simp [insertGroup]
  | cons hd tl ih =>
    obtain ⟨k', rs⟩ := hd
    rw [insertGroup]
    by_cases h : pyEqVal k' k = true
    · rw [if_pos h]
      simp [List.any_cons, h]
    · rw [if_neg h]
      by_cases h2 : tl.any (fun p => pyEqVal p.1 k) = true
      · simp [List.any_cons, h, h2, ih]
      · simp [List.any_cons, h, h2, ih]

/-- Python equality on scalar values is symmetric. -/
theorem pyEqVal_symm (a b : Value) : pyEqVal a b = pyEqVal b a := by
  cases a <;> cases b <;> simp only [pyEqVal] <;>
    · rw [Bool.eq_iff_iff]
      simp only [beq_iff_eq]
      exact eq_comm

/-- One insertion preserves pairwise distinctness of the group keys. -/
theorem insertGroup_pairwise (k : Value) (r : Record)
    (acc : List (Value × List Record))
    (hacc : (acc.map (fun p => p.1)).Pairwise (fun a b => pyEqVal a b = false)) :
    ((insertGroup acc k r).map (fun p => p.1)).Pairwise
      (fun a b => pyEqVal a b = false) := by
  rw [insertGroup_keys]
  by_cases h : acc.any (fun p => pyEqVal p.1 k) = true
  · rw [if_pos h]
    exact hacc
  · rw [if_neg h]
    rw [List.pairwise_append]
    refine ⟨hacc, List.pairwise_singleton _ _, ?_⟩
    intro a ha b hb
    simp only [List.mem_singleton] at hb
    subst hb
    obtain ⟨p, hp, rfl⟩ := List.mem_map.mp ha
    cases hc : pyEqVal p.1 b with
    | false => rfl
    | true => exact absurd (List.any_eq_true.mpr ⟨p, hp, hc⟩) h

/-- All group keys of `groupByKey` are pairwise distinct under Python
equality. -/
theorem groupByKey_pairwise (key : Record → Value) (records : List Record) :
    ((groupByKey key records).map (fun p => p.1)).Pairwise
      (fun a b => pyEqVal a b = false) := by
  rw [groupByKey]
  suffices h : ∀ acc : List (Value × List Record),
      (acc.map (fun p => p.1)).Pairwise (fun a b => pyEqVal a b = false) →
      ((records.foldl (fun acc r => insertGroup acc (key r) r) acc).map
        (fun p => p.1)).Pairwise (fun a b => pyEqVal a b = false) by
    exact h [] (by simp)
  induction records with
  | nil => intro acc hacc; simpa using hacc
  | cons r t ih =>
    intro acc hacc
    rw [List.foldl_cons]
    exact ih _ (insertGroup_pairwise (key r) r acc hacc)

/-- C4: for any fixed grouping criterion, the groups form an exact partition
of the non-empty input — the flattened groups are a permutation of the input
(no record lost or duplicated), every group member matches its group key, and
the group keys are pairwise distinct, so each record lies in exactly one
group; a record lacking every candidate key field resolves to the constant
"unknown" key for both the participant and the residence criterion. -/
theorem claim4_partition (key : Record → Value) (records : List Record) (r₀ : Record)
    (_hne : records ≠ [])
    (h1 : getField r₀ "participant_id" = Option.none)
    (h2 : getField r₀ "record_id" = Option.none)
    (h3 : getField r₀ "residence_type" = Option.none)
    (h4 : getField r₀ "location" = Option.none) :
    (((groupByKey key records).map (fun p => p.2)).flatten).Perm records ∧
    (∀ p ∈ groupByKey key records, ∀ x ∈ p.2, pyEqVal p.1 (key x) = true) ∧
    ((groupByKey key records).map (fun p => p.1)).Pairwise
      (fun a b => pyEqVal a b = false) ∧
    participantKey r₀ = Value.str "unknown" ∧
    residenceKey r₀ = Value.str "unknown" := by
  refine ⟨?_, groupByKey_members key records, groupByKey_pairwise key records, ?_, ?_⟩
  · have h := groupFold_flatten_perm key records []
    simpa [groupByKey] using h
  · simp [participantKey, getFieldD, h1, h2]
  · simp [residenceKey, getFieldD, h3, h4]

/-- Witness for C4: three records keyed by `record_id` (twice 1, once 2)
flatten back to the input, and the empty record resolves to the "unknown"
participant key. -/
theorem claim4_partition_witness :
    (((groupByKey participantKey
        [[("record_id", Value.int 1)], [("record_id", Value.int 1)],
         [("record_id", Value.int 2)]]).map (fun p => p.2)).flatten).Perm
      [[("record_id", Value.int 1)], [("record_id", Value.int 1)],
       [("record_id", Value.int 2)]] ∧
    participantKey [] = Value.str "unknown" :=
  ⟨(claim4_partition participantKey _ [] (by decide) rfl rfl rfl rfl).1,
   (claim4_partition participantKey
      [[("record_id", Value.int 1)], [("record_id", Value.int 1)],
       [("record_id", Value.int 2)]] [] (by decide) rfl rfl rfl rfl).2.2.2.1⟩

/-- Bind on a raised `Except` propagates the error. -/
theorem except_error_bind {ε α β : Type} (e : ε) (f : α → Except ε β) :
    (Except.error e >>= f) = Except.error e := rfl

/-- Bind on a successful `Except` applies the continuation. -/
theorem except_ok_bind {ε α β : Type} (a : α) (f : α → Except ε β) :
    (Except.ok a >>= f) = f a := rfl

/-- Bind after `pure` applies the continuation. -/
theorem except_pure_bind {ε α β : Type} (a : α) (f : α → Except ε β) :
    ((pure a : Except ε α) >>= f) = f a := rfl

/-- A successful comparison build has exactly one entry per group. -/
theorem buildComparison_length (groups : List (Value × List Record)) :
    ∀ (acc : List (Value × ResidenceEntry)) (comp : List (Value × ResidenceEntry)),
      (groups.foldlM (fun acc p => do
        let metrics ← _calculate_residence_metrics p.2
        let demo ← _analyze_residence_demographics p.2
        pure (acc ++ [(p.1, ⟨p.2.length, metrics, demo⟩)])) acc) = Except.ok comp →
      comp.length = acc.length + groups.length := by
  induction groups with
  | nil =>
    intro acc comp h
    simp only [List.foldlM_nil] at h
    cases h
    simp
  | cons g gs ih =>
    intro acc comp h
    rw [List.foldlM_cons] at h
    cases hm : _calculate_residence_metrics g.2 with
    | error e =>
      rw [hm] at h
      simp only [except_error_bind] at h
      exact absurd h (by simp)
    | ok m =>
      rw [hm] at h
      simp only [except_ok_bind] at h
      cases hd : _analyze_residence_demographics g.2 with
      | error e =>
        rw [hd] at h
        simp only [except_error_bind] at h
        exact absurd h (by simp)
      | ok d =>
        rw [hd] at h
        simp only [except_ok_bind, except_pure_bind] at h
        have := ih (acc ++ [(g.1, ⟨g.2.length, m, d⟩)]) comp h
        simp only [List.length_append, List.length_cons, List.length_nil] at this ⊢
        omega

/-- The `insights` entry of the residence document. -/
theorem jLookup_insights (x y z : JVal) :
    jLookup (.dict [("total_residences", x), ("comparison", y), ("insights", z)])
      "insights" = Option.some z := rfl

/-- C10: a successful residence comparison carries an empty insights list
whenever the records resolve to at most one residence group, and exactly the
two insight strings (best-performance and participant-count rollup) whenever
there are at least two groups. -/
theorem claim10_insights_gate (data : List Record) (doc : JVal) (hne : data ≠ [])
    (hok : analyze_residence_comparison data = Except.ok doc) :
    ((groupByKey residenceKey data).length ≤ 1 →
      jLookup doc "insights" = Option.some (.list [])) ∧
    (1 < (groupByKey residenceKey data).length →
      ∃ s₁ s₂, jLookup doc "insights" = Option.some (.list [.str s₁, .str s₂])) := by
  have hempty : data.isEmpty = false := by
    cases data with
    | nil => exact absurd rfl hne
    | cons a t => rfl
  rw [analyze_residence_comparison, hempty] at hok
  simp only [Bool.false_eq_true, if_false] at hok
  cases hb : buildComparison (groupByKey residenceKey data) with
  | error e =>
    rw [hb, except_error_bind] at hok
    exact absurd hok (by simp)
  | ok comp =>
    rw [hb, except_ok_bind] at hok
    have hdoc : doc =
        .dict [("total_residences", .num (((groupByKey residenceKey data).length : ℚ))),
               ("comparison", .vdict (comp.map (fun p => (p.1, p.2.toJ)))),
               ("insights", .list ((_generate_residence_insights comp).map JVal.str))] := by
      cases hok
      rfl
    have hlen : comp.length = (groupByKey residenceKey data).length := by
      have := buildComparison_length (groupByKey residenceKey data) [] comp
        (by rw [buildComparison] at hb; exact hb)
      simpa using this
    constructor
    · intro hle
      rw [hdoc, jLookup_insights]
      rw [_generate_residence_insights, if_neg (by omega)]
      rfl
    · intro hlt
      rw [hdoc, jLookup_insights]
      rw [_generate_residence_insights, if_pos (by omega)]
      exact ⟨_, _, rfl⟩

/-- Witness for C10: two residence groups with numeric fields produce exactly
two insight strings. -/
theorem claim10_insights_gate_witness :
    ∃ s₁ s₂, jLookup residenceDemoDoc "insights" =
      Option.some (.list [.str s₁, .str s₂]) :=
  (claim10_insights_gate residenceDemoData residenceDemoDoc (by decide) (by rfl)).2
    (by decide)
